import Mathlib

/-!
Verification development for the presentation-generation backend
(`backend/ai_service.py` together with its collaborators
`backend/theme_manager.py` and `backend/interactive_features.py`).

Texts are modelled as `List Char` (named `Str`), matching Python's
per-character string semantics (`len`, `count`, slicing and `strip` all
operate on characters).  Dictionary keys that may be absent are modelled
as `Option` fields.  The single upstream model call and the external
image/render providers are nondeterministic at the network boundary;
their outcomes are passed in explicitly through `ProviderEnv` /
`Option PData` parameters, and everything downstream of those outcomes
is translated function-for-function from the source.
-/

namespace PresentationAi

abbrev Str := List Char

/-- Python `str.strip()` strips whitespace; `Char.isWhitespace` models it. -/
def isSpaceChar (c : Char) : Bool := c.isWhitespace

/-- Python `s.lstrip()` (also the leading half of `s.strip()`). -/
def lstrip (s : Str) : Str := s.dropWhile isSpaceChar

/-- Python `s.rstrip()` (the trailing half of `s.strip()`). -/
def rstrip (s : Str) : Str := (s.reverse.dropWhile isSpaceChar).reverse

/-- Python `s.strip()`. -/
def strip (s : Str) : Str := lstrip (rstrip s)

/-- Python `s.split(sep)` for a one-character separator `sep`. -/
def splitOnCh (sep : Char) : Str → List Str
  | [] => [[]]
  | c :: rest =>
    match splitOnCh sep rest with
    | [] => if c = sep then [[], []] else [[c]]
    | h :: t => if c = sep then [] :: h :: t else (c :: h) :: t

/-- Python `"\n".join(xs)` (and `sep.join` for a one-character separator). -/
def joinCh (sep : Char) : List Str → Str
  | [] => []
  | [x] => x
  | x :: y :: t => x ++ sep :: joinCh sep (y :: t)

/-- Python `s.count(c)` for a single-character needle. -/
def countChar (s : Str) (c : Char) : Nat := s.count c

/-- Python `c in s` for a single-character needle. -/
def containsChar (s : Str) (c : Char) : Bool := s.contains c

/-- Python `s.startswith(pre)`. -/
def startsWith (s pre : Str) : Bool := pre.isPrefixOf s

/-- Python `pat in s` (substring containment). -/
def containsSub : Str → Str → Bool
  | [], pat => decide (pat = [])
  | s@(_ :: t), pat => startsWith s pat || containsSub t pat

/-- Python `s.endswith(suf)`. -/
def endsWith (s suf : Str) : Bool := suf.isSuffixOf s

/-- Python `s.lower()` (ASCII case folding; all inputs of interest are ASCII). -/
def lowerStr (s : Str) : Str := s.map Char.toLower

/-- Python `str(n)` / f-string interpolation of a non-negative integer. -/
def natStr (n : Nat) : Str := (Nat.repr n).data

/-- One step of Python `str.title()`: the Boolean says whether the previous
character was alphabetic. -/
def pyTitleGo : Bool → Str → Str
  | _, [] => []
  | prevAlpha, c :: rest =>
    (if c.isAlpha then (if prevAlpha then c.toLower else c.toUpper) else c)
      :: pyTitleGo c.isAlpha rest

/-- Python `s.title()`. -/
def pyTitle (s : Str) : Str := pyTitleGo false s

/-- UTF-8 encoding of one character, as byte values. -/
def utf8Bytes (c : Char) : List Nat :=
  let n := c.toNat
  if n < 0x80 then [n]
  else if n < 0x800 then
    [0xC0 ||| (n >>> 6), 0x80 ||| (n &&& 0x3F)]
  else if n < 0x10000 then
    [0xE0 ||| (n >>> 12), 0x80 ||| ((n >>> 6) &&& 0x3F), 0x80 ||| (n &&& 0x3F)]
  else
    [0xF0 ||| (n >>> 18), 0x80 ||| ((n >>> 12) &&& 0x3F),
     0x80 ||| ((n >>> 6) &&& 0x3F), 0x80 ||| (n &&& 0x3F)]

/-- Upper-case hexadecimal digit, as used by `urllib.parse.quote`. -/
def hexDigit (n : Nat) : Char :=
  if n < 10 then Char.ofNat (48 + n) else Char.ofNat (55 + n)

/-- Characters `urllib.parse.quote` leaves unencoded (default `safe='/'`). -/
def quoteSafe (c : Char) : Bool :=
  c.isAlphanum || c = '_' || c = '.' || c = '-' || c = '~' || c = '/'

/-- Python `urllib.parse.quote(s)` with the default safe set. -/
def pyQuote (s : Str) : Str :=
  (s.map (fun c =>
    if quoteSafe c then [c]
    else (utf8Bytes c).map (fun b => ['%', hexDigit (b / 16), hexDigit (b % 16)]) |>.flatten)).flatten

/-! ## Data model

Slides travel through the pipeline as dictionaries; the fields below are
the keys the translated functions read or write.  `Option` marks keys
that may be absent from the dictionary. -/

/-- The `chartData` dictionary attached to a slide.  `needed` defaults to
`False` (`chart_data.get("needed", False)`), the remaining keys may be
absent.  Chart values are modelled as integers; only their count matters
to any function below. -/
structure ChartData where
  needed : Bool := false
  type : Option Str := none
  title : Option Str := none
  labels : Option (List Str) := none
  values : Option (List Int) := none
  description : Option Str := none
deriving DecidableEq

/-- A toggle added by `interactive_features.add_toggle_to_slide`. -/
structure Toggle where
  id : Str
  title : Str
  content : Str
  isExpanded : Bool
deriving DecidableEq

/-- A nested card added by `interactive_features.add_nested_card_to_slide`. -/
structure NestedCard where
  id : Str
  title : Str
  content : Str
  imageUrl : Option Str
  layout : Str
deriving DecidableEq

/-- A slide dictionary.  `type` is the slide-category string from the
source (`"title"`, `"content"`, `"hook"`, ...). -/
structure Slide where
  type : Str := ("content".data)
  title : Str := []
  content : Str := []
  imagePrompt : Option Str := none
  layout : Str := ("split".data)
  chartData : Option ChartData := none
  chartUrl : Option Str := none
  imageUrl : Option Str := none
  id : Option Str := none
  height : Option Nat := none
  backgroundColor : Option Str := none
  textColor : Option Str := none
  primaryColor : Option Str := none
  secondaryColor : Option Str := none
  accentColor : Option Str := none
  toggles : Option (List Toggle) := none
  nestedCards : Option (List NestedCard) := none
deriving DecidableEq

/-- An outline section (`{"title": ..., "content": ...}`). -/
structure Section where
  title : Str
  content : Str
deriving DecidableEq

/-- Parsed model output after JSON extraction: the `data` dict as the
generators use it (`data.get("title")`, `data.get("description")`,
`data.get("slides", [])`). -/
structure PData where
  title : Option Str := none
  description : Option Str := none
  slides : List Slide := []
deriving DecidableEq

/-- A theme from `theme_manager.py`. -/
structure Theme where
  name : Str
  primaryColor : Str
  secondaryColor : Str
  accentColor : Str
  backgroundColor : Str
  textColor : Str
  fontFamily : Str
  imageStyleKeywords : List Str
deriving DecidableEq

/-- Deck metadata as assembled by `generate_presentation`. -/
structure Metadata where
  totalSlides : Nat
  hasInteractiveFeatures : Bool
  hasCharts : Bool
  hasImages : Bool
  audience : Str
  purpose : Str
deriving DecidableEq

/-- The deck returned by `generate_presentation`. -/
structure Deck where
  title : Str
  description : Str
  themeName : Str
  slides : List Slide
  metadata : Metadata
deriving DecidableEq

/-- Outcomes of the external, nondeterministic effects: per-model
Hugging Face image calls (`none` = non-200 / timeout / exception),
matplotlib chart rasterisation (`none` = a rendering exception, `some b`
= the base64 payload), the wall clock, uuid generation and the random
source.  Everything else in the pipeline is deterministic in these. -/
structure ProviderEnv where
  hfImage : Str → Str → Option Str
  renderPayload : ChartData → Option Str
  nowMs : Nat
  uuid : Nat → Str
  randInt : Nat → Nat → Int
  themeChoice : Theme

/-! ## `ai_service.py`: layout height, contextual charts, chart rendering -/

/-- Models `slide.get("chartData", {}).get("needed", False)`. -/
def slideHasChart (slide : Slide) : Bool :=
  (slide.chartData.getD {}).needed

/-- Models `AIHeavyPresentationService._calculate_dynamic_height`. -/
def calculateDynamicHeight (slide : Slide) : Nat :=
  let baseHeight := 800
  let content := slide.content
  let title := slide.title
  let hasChart := slideHasChart slide
  let bulletCount := countChar content '•' + countChar content '\n'
  let textLength := content.length + title.length
  let height := baseHeight + bulletCount * 40 + (textLength / 200) * 50
    + (if hasChart then 300 else 0)
  max 800 (min 1400 height)

/-- Keyword groups of `_generate_contextual_chart`. -/
def growthKeywords : List Str :=
  ["growth", "trend", "over time", "timeline", "progress"].map String.data

def comparisonKeywords : List Str :=
  ["compare", "vs", "versus", "difference", "performance"].map String.data

def distributionKeywords : List Str :=
  ["distribution", "breakdown", "segments", "share"].map String.data

/-- Models `AIHeavyPresentationService._generate_contextual_chart`.  The slide
dicts reaching it always carry a `title` key, so `slide.get("title", topic)`
is `slide.title` here. -/
def generateContextualChart (slide : Slide) (topic : Str) : ChartData :=
  let title := slide.title
  let content := slide.content
  let contentLower := lowerStr (title ++ ' ' :: content)
  if growthKeywords.any (fun w => containsSub contentLower w) then
    { needed := true, type := some ("line".data),
      title := some (topic ++ (" Growth Trajectory".data)),
      labels := some (["Q1", "Q2", "Q3", "Q4"].map String.data),
      values := some [65, 72, 84, 91],
      description := some ("Consistent quarter-over-quarter growth".data) }
  else if comparisonKeywords.any (fun w => containsSub contentLower w) then
    { needed := true, type := some ("bar".data),
      title := some (topic ++ (" Comparison".data)),
      labels := some (["Before", "After", "Industry Avg"].map String.data),
      values := some [55, 89, 72],
      description := some ("Significant improvement vs benchmark".data) }
  else if distributionKeywords.any (fun w => containsSub contentLower w) then
    { needed := true, type := some ("pie".data),
      title := some (topic ++ (" Distribution".data)),
      labels := some (["Segment A", "Segment B", "Segment C"].map String.data),
      values := some [45, 35, 20],
      description := some ("Market segment breakdown".data) }
  else
    { needed := true, type := some ("bar".data),
      title := some (topic ++ (" Key Metrics".data)),
      labels := some (["Efficiency", "Quality", "Speed", "Satisfaction"].map String.data),
      values := some [78, 85, 92, 88],
      description := some ("Performance across key dimensions".data) }

/-- Models `AIHeavyPresentationService._is_valid_chart_data`. -/
def isValidChartData (cd : ChartData) : Bool :=
  cd.type.isSome && cd.labels.isSome && cd.values.isSome
    && (cd.labels.getD []) ≠ [] && (cd.values.getD []) ≠ []
    && (cd.labels.getD []).length = (cd.values.getD []).length

/-- Prefix of every inline base64 image reference the service produces. -/
def dataPngPrefix : Str := ("data:image/png;base64,".data)

/-- Models `AIHeavyPresentationService._render_chart`.  The function catches its
own exceptions and returns `None` on any failure; the deterministic
validity check (`not labels or not values or len(labels) != len(values)`)
raises inside the `try`, so an invalid spec always yields `None`.  A
matplotlib failure on a valid spec is `env.renderPayload cd = none`. -/
def renderChart (env : ProviderEnv) (cd : ChartData) : Option Str :=
  let labels := cd.labels.getD []
  let values := cd.values.getD []
  if labels = [] || values = [] || labels.length ≠ values.length then none
  else (env.renderPayload cd).map (fun b64 => dataPngPrefix ++ b64)

/-! ## `ai_service.py`: image providers -/

/-- Models `self.hf_image_models`. -/
def hfImageModels : List Str :=
  ["stabilityai/stable-diffusion-2-1",
   "stabilityai/stable-diffusion-xl-base-1.0",
   "runwayml/stable-diffusion-v1-5",
   "prompthero/openjourney-v4",
   "Lykon/dreamshaper-8",
   "SG161222/Realistic_Vision_V5.1_noVAE"].map String.data

/-- Models `self.current_hf_model` with the default configuration
(`HF_IMAGE_MODEL` unset: `hf_image_models[0]`). -/
def currentHfModel : Str := ("stabilityai/stable-diffusion-2-1".data)

/-- Models `AIHeavyPresentationService._try_hf_model`: HTTP 200 yields the
base64-embedded payload, everything else (non-200, timeout, exception)
yields `None`. -/
def tryHfModel (env : ProviderEnv) (model prompt : Str) : Option Str :=
  (env.hfImage model prompt).map (fun b64 => dataPngPrefix ++ b64)

/-- Models `AIHeavyPresentationService._generate_hf_image`: the configured model
first, then the first two catalogue models other than it. -/
def generateHfImage (env : ProviderEnv) (prompt : Str) : Option Str :=
  match tryHfModel env currentHfModel prompt with
  | some result => some result
  | none =>
    ((hfImageModels.take 2).filter (fun m => m ≠ currentHfModel)).findSome?
      (fun m => tryHfModel env m prompt)

/-- Models `self.pollinations_url`. -/
def pollinationsUrl : Str := ("https://image.pollinations.ai/prompt/".data)

/-- Models `AIHeavyPresentationService._generate_pollinations_image`: builds the
templated URL; no network validation is performed and no exception
escapes (the `except` branch is unreachable for string inputs). -/
def generatePollinationsImage (prompt : Str) (height : Nat) : Str :=
  let cleanPrompt := strip prompt
  let cleanPrompt :=
    if cleanPrompt.length < 10 then cleanPrompt ++ (" professional illustration".data)
    else cleanPrompt
  let enhancedPrompt := cleanPrompt ++ (", high quality, professional, detailed, 4k".data)
  let encodedPrompt := pyQuote enhancedPrompt
  pollinationsUrl ++ encodedPrompt
    ++ ("?width=1920&height=".data) ++ natStr height
    ++ ("&nologo=true&enhance=true&model=flux".data)

/-- The image branch of `_add_media_assets`: Hugging Face first, then the
Pollinations URL fallback when the result is falsy. -/
def resolveImageUrl (env : ProviderEnv) (prompt : Str) (height : Nat) : Str :=
  let imageUrl := (generateHfImage env prompt).getD []
  if imageUrl = [] then generatePollinationsImage prompt height else imageUrl

/-! ## `ai_service.py`: `_add_media_assets` -/

/-- Models `image_prompt = slide.get("imagePrompt", slide.get('title', 'professional'))`:
the `title` key is always present in this model, so the inner default
never fires. -/
def mediaImagePrompt (slide : Slide) : Str :=
  slide.imagePrompt.getD slide.title

/-- The `if not has_chart:` image-resolution block of `_add_media_assets`. -/
def mediaImageStep (env : ProviderEnv) (slide : Slide) : Slide :=
  let height := calculateDynamicHeight slide
  { slide with imageUrl := some (resolveImageUrl env (mediaImagePrompt slide) height) }

/-- The per-slide body of `_add_media_assets`.  `has_chart and chart_data`
is the truthiness test on the dict; `chart_data` is non-empty whenever
its `needed` entry is `True`, so the guard reduces to `needed`. -/
def addMediaSlide (env : ProviderEnv) (slide : Slide) : Slide :=
  let chartData := slide.chartData.getD {}
  let hasChart := chartData.needed
  let slide :=
    if hasChart then
      if chartData.type.isSome && chartData.labels.isSome && chartData.values.isSome then
        let slide := { slide with imageUrl := some [] }
        { slide with chartUrl := some ((renderChart env chartData).getD []) }
      else
        mediaImageStep env { slide with chartUrl := some [] }
    else
      mediaImageStep env { slide with chartUrl := some [] }
  { slide with layout := ("split".data) }

/-- Models `AIHeavyPresentationService._add_media_assets`. -/
def addMediaAssets (env : ProviderEnv) (slides : List Slide) : List Slide :=
  slides.map (addMediaSlide env)

/-! ## `ai_service.py`: the schema enforcer of `generate_outline`

Lines 1736-1777: per-section validation (drop short titles/contents,
normalise bullets), padding to 8 with synthesized fillers, truncation
to 15. -/

/-- The bullet-normalisation step: if `"•" not in content`, split on
newlines, strip, drop empties, keep the first 3 lines and prefix each
with a bullet. -/
def ensureBullets (content : Str) : Str :=
  if containsChar content '•' then content
  else
    joinCh '\n' (((((splitOnCh '\n' content).map strip).filter
        (fun l => l ≠ [])).take 3).map (fun l =>
      if startsWith l ['•'] then l else '•' :: ' ' :: l))

/-- The per-section loop body: `None` models `continue` (the section is
dropped as noise). -/
def validateSection (sec : Section) : Option Section :=
  let title := strip sec.title
  let contentText := strip sec.content
  if title = [] || title.length < 5 then none
  else if contentText = [] || contentText.length < 20 then none
  else some ({ title := title, content := ensureBullets contentText })

/-- A synthesized filler section of `generate_outline`
(`"Key Insight {len+1}"`). -/
def fillerSection (n : Nat) : Section :=
  { title := ("Key Insight ".data) ++ natStr n,
    content := ("• Important point\n• Supporting detail\n• Key takeaway".data) }

/-- The `while len(validated_sections) < 8` padding loop: each appended
filler is numbered with the length at the moment of appending, plus one. -/
def padToEight (v : List Section) : List Section :=
  v ++ (List.range (8 - v.length)).map (fun i => fillerSection (v.length + 1 + i))

/-- The schema-enforcement step of `generate_outline`: validate each
section, pad to 8, truncate to 15 (`validated_sections[:15]` is the
identity when at most 15 remain). -/
def enforceSchema (sections : List Section) : List Section :=
  (padToEight (sections.filterMap validateSection)).take 15

/-! ## `ai_service.py`: the truncated-JSON repair of `generate_outline`

Lines 1706-1722 (`# Try 3: Fix incomplete JSON`), reached only when the
direct parse and the regex extraction both failed. -/

/-- Models `response.rfind(pat)` restricted to a found occurrence: the largest
index at which `pat` starts. -/
def rfindPat (s pat : Str) : Option Nat :=
  ((List.range s.length).filter (fun i => startsWith (s.drop i) pat)).getLast?

/-- Models `last_complete = response.rfind('"}')`, `fixed_json =
response[:last_complete + 2]`, guarded by `last_complete > 0`. -/
def truncAtLastClose (response : Str) : Option Str :=
  match rfindPat response ['"', '\x7d'] with
  | some lastComplete =>
    if 0 < lastComplete then some (response.take (lastComplete + 2)) else none
  | none => none

/-- The bracket-balancing step: one `']'` if `'['`s outnumber `']'`s,
then one closing brace if open braces outnumber closing ones. -/
def balanceOnce (fixedJson : Str) : Str :=
  let fixedJson :=
    if countChar fixedJson ']' < countChar fixedJson '[' then fixedJson ++ [']']
    else fixedJson
  if countChar fixedJson '\x7d' < countChar fixedJson '\x7b' then fixedJson ++ ['\x7d']
  else fixedJson

/-- The whole repair attempt (`if not data and response.startswith('{')`):
truncate to the last complete `"}`-closure, then balance once. -/
def fixIncompleteJson (response : Str) : Option Str :=
  if startsWith response ['\x7b'] then (truncAtLastClose response).map balanceOnce
  else none

/-! ## `ai_service.py`: topic-driven generation
(`generate_presentation_gamma_style` and `_create_intelligent_fallback`)

The model call and JSON extraction are nondeterministic; their outcome is
the `Option PData` parameter (`none` = any exception on that path, which
falls back to the synthesized deck). -/

/-- Models `enumerate`-style map, needed for loops indexed by `i`. -/
def enumMap (f : Nat → α → β) : Nat → List α → List β
  | _, [] => []
  | i, a :: rest => f i a :: enumMap f (i + 1) rest

/-- Models `AIHeavyPresentationService._create_intelligent_slide`. -/
def createIntelligentSlide (topic : Str) (index : Nat) (audience : Str) : Slide :=
  let hasChart := index % 3 = 0
  let slide : Slide :=
    { type := ("content".data),
      title := ("How ".data) ++ topic ++ (" Impacts ".data) ++ pyTitle audience,
      content := ("• Strategic insight about ".data) ++ topic
        ++ ("\n• Data-driven approach\n• Measurable outcomes\n• Key takeaway for action".data),
      imagePrompt := some (topic ++ (" professional business context, modern".data)),
      layout := ("split".data) }
  if hasChart then { slide with chartData := some (generateContextualChart slide topic) }
  else { slide with chartData := some ({ needed := false }) }

/-- The `core_topics` table of `_create_intelligent_fallback`. -/
def coreTopics : List (Str × Str) :=
  [("Strategy", "Strategic approach"),
   ("Implementation", "Execution framework"),
   ("Results", "Measurable outcomes"),
   ("Best Practices", "Proven methodologies"),
   ("Challenges", "Overcoming obstacles"),
   ("Future", "What\x27s next")].map (fun p => (p.1.data, p.2.data))

/-- One core-content slide of `_create_intelligent_fallback` (loop index
`i`; the chart values are four draws from the random source). -/
def fallbackCoreSlide (env : ProviderEnv) (topic : Str) (i : Nat) (p : Str × Str) : Slide :=
  let hasChart := i % 2 = 0
  let slide : Slide :=
    { type := ("content".data),
      title := p.1 ++ (": ".data) ++ p.2 ++ (" for ".data) ++ topic,
      content := ("• Key insight about ".data) ++ lowerStr p.1
        ++ ("\n• Practical application\n• Real-world examples\n• Action items".data),
      imagePrompt := some (topic ++ (" ".data) ++ lowerStr p.1 ++ (", professional business".data)),
      layout := ("split".data) }
  if hasChart then
    { slide with chartData := some (
      { needed := true,
        type := some (if i % 2 = 0 then ("bar".data) else ("line".data)),
        title := some (p.1 ++ (" Metrics".data)),
        labels := some (["Factor 1", "Factor 2", "Factor 3", "Factor 4"].map String.data),
        values := some ((List.range 4).map (fun j => env.randInt i j)),
        description := some (("Performance analysis for ".data) ++ lowerStr p.1) }) }
  else { slide with chartData := some ({ needed := false }) }

/-- Models `AIHeavyPresentationService._create_intelligent_fallback`. -/
def createIntelligentFallback (env : ProviderEnv) (topic : Str) (numSlides : Nat)
    (audience purpose : Str) : PData :=
  let numSlides := max 8 (min 15 numSlides)
  let titleSlide : Slide :=
    { type := ("title".data),
      title := ("Mastering ".data) ++ topic ++ (": A Strategic Guide".data),
      content := ("Essential insights for ".data) ++ audience,
      imagePrompt := some (topic ++ (" professional hero image, modern, inspiring".data)),
      layout := ("center".data),
      chartData := some ({ needed := false }) }
  let hookSlide : Slide :=
    { type := ("hook".data),
      title := ("The ".data) ++ topic ++ (" Opportunity".data),
      content := ("• 85% of ".data) ++ audience
        ++ (" report significant impact\n• Industry growing 40% year-over-year\n• Critical window for action".data),
      imagePrompt := some ("data analytics, opportunity, modern professional".data),
      layout := ("split".data),
      chartData := some (
        { needed := true, type := some ("bar".data),
          title := some ("Market Growth & Opportunity".data),
          labels := some (["2022", "2023", "2024", "2025"].map String.data),
          values := some [55, 68, 82, 95],
          description := some ("Accelerating market growth trajectory".data) }) }
  let contextSlide : Slide :=
    { type := ("context".data),
      title := ("Why ".data) ++ topic ++ (" Matters Now".data),
      content := ("• Changing market dynamics\n• Competitive pressure increasing\n• Customer expectations evolving\n• Technology enabling new approaches".data),
      imagePrompt := some (topic ++ (" business context, professional".data)),
      layout := ("split".data),
      chartData := some ({ needed := false }) }
  let coreSlides := enumMap (fun i p => fallbackCoreSlide env topic i p) 0
    (coreTopics.take (numSlides - 5))
  let summarySlide : Slide :=
    { type := ("summary".data),
      title := ("Key Takeaways: Your Path Forward".data),
      content := ("• ".data) ++ topic
        ++ (" drives measurable results\n• Implementation is straightforward\n• ROI is proven and significant\n• Time to act is now".data),
      imagePrompt := some ("success metrics, achievement, professional".data),
      layout := ("split".data),
      chartData := some (
        { needed := true, type := some ("pie".data),
          title := some ("Success Factor Distribution".data),
          labels := some (["Strategy", "Execution", "Team", "Technology"].map String.data),
          values := some [30, 35, 20, 15],
          description := some ("Critical success factors breakdown".data) }) }
  let conclusionSlide : Slide :=
    { type := ("conclusion".data),
      title := ("Your Action Plan".data),
      content := (" Immediate next steps\n✅ Resources available\n✅ Support structure\n\n🎯 Let\x27s transform ".data)
        ++ topic ++ (" together".data),
      imagePrompt := some ("team success, celebration, professional photography".data),
      layout := ("center".data),
      chartData := some ({ needed := false }) }
  let slides := [titleSlide, hookSlide, contextSlide] ++ coreSlides
    ++ [summarySlide, conclusionSlide]
  { title := topic ++ (": Strategic Guide for ".data) ++ pyTitle audience,
    description := ("Comprehensive presentation for ".data) ++ purpose,
    slides := slides.take numSlides }

/-- Models `AIHeavyPresentationService.generate_presentation_gamma_style`,
downstream of the model response.  `resp = none` is any failure of the
call / fence-stripping / regex / `json.loads` chain (the `except` arm);
`resp = some data` is a successful parse. -/
def generatePresentationGammaStyle (env : ProviderEnv) (topic : Str) (numSlides : Nat)
    (audience purpose : Str) (resp : Option PData) : PData :=
  let numSlides := max 8 (min 15 numSlides)
  match resp with
  | none => createIntelligentFallback env topic numSlides audience purpose
  | some data =>
    let slides := data.slides
    let slides :=
      if slides.length < numSlides then
        slides ++ (List.range (numSlides - slides.length)).map
          (fun j => createIntelligentSlide topic (slides.length + j) audience)
      else if numSlides < slides.length then slides.take numSlides
      else slides
    { data with slides := slides }

/-! ## `ai_service.py`: outline-driven generation
(`_generate_from_outline_sections` and `_create_fallback_from_outline`) -/

/-- Models `chart_positions = [2, 5, 8, 11, 14]` (0-indexed slides 3, 6, 9, 12, 15). -/
def chartPositions : List Nat := [2, 5, 8, 11, 14]

/-- The shared sentence-to-bullets formatting: split the section content
on `'.'`, strip, drop empties, bullet the first 5. -/
def sentenceBullets (sectionContent : Str) : Str :=
  let sentences := ((splitOnCh '.' sectionContent).map strip).filter (fun s => s ≠ [])
  joinCh '\n' ((sentences.take 5).map (fun s => '•' :: ' ' :: s))

/-- The `for i, slide in enumerate(slides)` body of
`_generate_from_outline_sections` (a slide with `i` beyond the outline is
left untouched). -/
def processOutlineSlide (sections : List Section) (imageStyle : Str)
    (i : Nat) (slide : Slide) : Slide :=
  if i < sections.length then
    let sec := sections.getD i { title := [], content := [] }
    let slide := { slide with title := sec.title }
    let slide :=
      if slide.content = [] || slide.content.length < 20 then
        let sectionContent := sec.content
        if !sectionContent.isEmpty && !startsWith sectionContent ['•'] then
          { slide with content := sentenceBullets sectionContent }
        else
          { slide with content := sectionContent }
      else slide
    if chartPositions.contains i then
      { slide with chartData := some (generateContextualChart slide sec.title),
                   imagePrompt := some [] }
    else
      let slide :=
        if (slide.chartData.getD {}).needed then slide
        else { slide with chartData := some ({ needed := false }) }
      if (slide.imagePrompt.getD []).isEmpty then
        { slide with imagePrompt := some (sec.title ++ (", ".data) ++ imageStyle
            ++ (" style, professional".data)) }
      else slide
  else slide

/-- The `for i in range(len(slides), num_slides)` fill loop of
`_generate_from_outline_sections` (only reached with `i` inside the
outline, since `num_slides = len(outline_sections)`). -/
def outlineFillSlide (sections : List Section) (imageStyle : Str) (i : Nat) : Slide :=
  let sec := sections.getD i { title := [], content := [] }
  let sectionContent := sec.content
  let formattedContent :=
    if !sectionContent.isEmpty && !startsWith sectionContent ['•'] then
      sentenceBullets sectionContent
    else if !sectionContent.isEmpty then sectionContent
    else ("• Key point 1\n• Key point 2\n• Key point 3".data)
  let newSlide : Slide :=
    { type := ("content".data),
      title := sec.title,
      content := formattedContent,
      imagePrompt := some (sec.title ++ (", ".data) ++ imageStyle ++ (" style, professional".data)),
      layout := ("split".data),
      chartData := some ({ needed := false }) }
  if chartPositions.contains i then
    { newSlide with chartData := some (generateContextualChart newSlide sec.title),
                    imagePrompt := some [] }
  else newSlide

/-- Models `AIHeavyPresentationService._create_fallback_from_outline`. -/
def createFallbackFromOutline (sections : List Section) (imageStyle : Str) : PData :=
  let slides := sections.map (fun sec =>
    let sectionContent := sec.content
    let formattedContent :=
      if !sectionContent.isEmpty && !startsWith sectionContent ['•'] then
        sentenceBullets sectionContent
      else if !sectionContent.isEmpty then sectionContent
      else ("• Key insight\n• Supporting detail\n• Takeaway".data)
    { type := ("content".data),
      title := sec.title,
      content := formattedContent,
      imagePrompt := some (sec.title ++ (", ".data) ++ imageStyle
        ++ (" style, professional, high quality".data)),
      layout := ("split".data),
      chartData := some ({ needed := false }) })
  { title := match sections.head? with
             | some sec => sec.title
             | none => ("Presentation".data),
    description := some ("Generated from outline".data),
    slides := slides }

/-- Models `AIHeavyPresentationService._generate_from_outline_sections`,
downstream of the model response (`resp = none` is any exception on the
call/parse path, which falls back to `_create_fallback_from_outline`).
`num_slides = len(outline_sections)` — there is no 8..15 clamp here. -/
def generateFromOutlineSections (sections : List Section) (imageStyle : Str)
    (resp : Option PData) : PData :=
  let numSlides := sections.length
  match resp with
  | none => createFallbackFromOutline sections imageStyle
  | some data =>
    let slides := enumMap (processOutlineSlide sections imageStyle) 0 data.slides
    let slides :=
      if slides.length < numSlides then
        slides ++ (List.range (numSlides - slides.length)).map
          (fun j => outlineFillSlide sections imageStyle (slides.length + j))
      else if numSlides < slides.length then slides.take numSlides
      else slides
    { data with slides := slides }

/-! ## `theme_manager.py` and `interactive_features.py` -/

def modernTheme : Theme :=
  { name := ("Modern".data), primaryColor := ("#3b82f6".data),
    secondaryColor := ("#1e40af".data), accentColor := ("#60a5fa".data),
    backgroundColor := ("#ffffff".data), textColor := ("#1f2937".data),
    fontFamily := ("Inter, sans-serif".data),
    imageStyleKeywords := ["modern", "clean", "minimalist", "flat design", "professional"].map String.data }

def darkTheme : Theme :=
  { name := ("Dark".data), primaryColor := ("#1f2937".data),
    secondaryColor := ("#374151".data), accentColor := ("#6b7280".data),
    backgroundColor := ("#111827".data), textColor := ("#f9fafb".data),
    fontFamily := ("Inter, sans-serif".data),
    imageStyleKeywords := ["dark", "moody", "sophisticated", "high contrast", "professional"].map String.data }

def warmTheme : Theme :=
  { name := ("Warm".data), primaryColor := ("#f59e0b".data),
    secondaryColor := ("#d97706".data), accentColor := ("#fbbf24".data),
    backgroundColor := ("#fef3c7".data), textColor := ("#1f2937".data),
    fontFamily := ("Inter, sans-serif".data),
    imageStyleKeywords := ["warm", "friendly", "approachable", "soft colors", "inviting"].map String.data }

def corporateTheme : Theme :=
  { name := ("Corporate".data), primaryColor := ("#1e40af".data),
    secondaryColor := ("#1e3a8a".data), accentColor := ("#3b82f6".data),
    backgroundColor := ("#f8fafc".data), textColor := ("#1e293b".data),
    fontFamily := ("Inter, sans-serif".data),
    imageStyleKeywords := ["corporate", "professional", "business", "formal", "trustworthy"].map String.data }

def creativeTheme : Theme :=
  { name := ("Creative".data), primaryColor := ("#8b5cf6".data),
    secondaryColor := ("#7c3aed".data), accentColor := ("#a78bfa".data),
    backgroundColor := ("#faf5ff".data), textColor := ("#1f2937".data),
    fontFamily := ("Inter, sans-serif".data),
    imageStyleKeywords := ["creative", "artistic", "vibrant", "innovative", "inspiring"].map String.data }

/-- Models `ThemeManager._initialize_themes`, keyed by name. -/
def themesCatalog : List (Str × Theme) :=
  [(("modern".data), modernTheme), (("dark".data), darkTheme),
   (("warm".data), warmTheme), (("corporate".data), corporateTheme),
   (("creative".data), creativeTheme)]

/-- Models `ThemeManager.get_theme`: a known name resolves to its theme, any
other (or falsy) name yields `random.choice(...)`, modelled by
`env.themeChoice`. -/
def getTheme (env : ProviderEnv) (themeName : Str) : Theme :=
  match themesCatalog.lookup themeName with
  | some theme => theme
  | none => env.themeChoice

/-- Models `AIHeavyPresentationService._apply_theme_colors`. -/
def applyThemeColors (slide : Slide) (theme : Theme) : Slide :=
  { slide with backgroundColor := some theme.backgroundColor,
               textColor := some theme.textColor,
               primaryColor := some theme.primaryColor,
               secondaryColor := some theme.secondaryColor,
               accentColor := some theme.accentColor }

/-- Models `InteractiveFeatureManager.add_toggle_to_slide`; the `Nat` is the
running index into the uuid stream. -/
def addToggleToSlide (env : ProviderEnv) (k : Nat) (slide : Slide)
    (title content : Str) : Slide × Nat :=
  let toggles := slide.toggles.getD []
  ({ slide with toggles := some (toggles ++
      [{ id := env.uuid k, title := title, content := content, isExpanded := false }]) },
   k + 1)

/-- Models `InteractiveFeatureManager.add_nested_card_to_slide`. -/
def addNestedCardToSlide (env : ProviderEnv) (k : Nat) (slide : Slide)
    (title content : Str) (imageUrl : Option Str) : Slide × Nat :=
  let cards := slide.nestedCards.getD []
  ({ slide with nestedCards := some (cards ++
      [{ id := env.uuid k, title := title, content := content,
         imageUrl := imageUrl, layout := ("content".data) }]) },
   k + 1)

/-- The question-harvesting loop of `_add_qa_features`. -/
def qaQuestions (content : Str) : List Str :=
  ((splitOnCh '\n' content).map strip).filter
    (fun line => endsWith line ['?'] || startsWith line ['Q', ':'])

/-- The toggle-appending loop of `_add_qa_features`. -/
def addQaTogglesLoop (env : ProviderEnv) : Nat → Slide → Nat → List Str → Slide × Nat
  | k, slide, _, [] => (slide, k)
  | k, slide, i, question :: rest =>
    let (slide, k) := addToggleToSlide env k slide question
      (("Answer to question ".data) ++ natStr (i + 1))
    addQaTogglesLoop env k slide (i + 1) rest

/-- Models `InteractiveFeatureManager._add_qa_features`. -/
def addQaFeatures (env : ProviderEnv) (k : Nat) (slide : Slide) : Slide × Nat :=
  let questions := qaQuestions slide.content
  if questions = [] then (slide, k)
  else addQaTogglesLoop env k { slide with toggles := some [] } 0 (questions.take 3)

/-- Models `InteractiveFeatureManager._add_comparison_features`. -/
def addComparisonFeatures (env : ProviderEnv) (k : Nat) (slide : Slide) : Slide × Nat :=
  let slide := { slide with layout := ("gallery".data), nestedCards := some [] }
  let (slide, k) := addNestedCardToSlide env k slide ("Option A".data)
    ("First option details".data) none
  addNestedCardToSlide env k slide ("Option B".data) ("Second option details".data) none

/-- Models `InteractiveFeatureManager._add_timeline_features`. -/
def addTimelineFeatures (env : ProviderEnv) (k : Nat) (slide : Slide) : Slide × Nat :=
  let slide := { slide with layout := ("timeline".data), nestedCards := some [] }
  let (slide, k) := addNestedCardToSlide env k slide ("2023".data) ("First milestone".data) none
  let (slide, k) := addNestedCardToSlide env k slide ("2024".data) ("Second milestone".data) none
  addNestedCardToSlide env k slide ("2025".data) ("Future goal".data) none

/-- Models `InteractiveFeatureManager._add_toggle_features`. -/
def addToggleFeatures (env : ProviderEnv) (k : Nat) (slide : Slide) : Slide × Nat :=
  let slide := { slide with toggles := some [] }
  let (slide, k) := addToggleToSlide env k slide ("More Details".data)
    ("Additional information about this topic".data)
  addToggleToSlide env k slide ("Examples".data) ("Real-world examples and use cases".data)

def qaKeywords : List Str := ["question", "q&a", "faq", "ask"].map String.data

def comparisonFeatureKeywords : List Str :=
  ["compare", "vs", "versus", "difference"].map String.data

def timelineKeywords : List Str :=
  ["timeline", "history", "chronology", "sequence"].map String.data

def toggleKeywords : List Str :=
  ["detail", "more info", "expand", "additional"].map String.data

/-- Models `InteractiveFeatureManager.enhance_slide_with_interactivity` with the
default `"auto"` mode; dispatch is on the lower-cased content. -/
def enhanceSlideWithInteractivity (env : ProviderEnv) (k : Nat) (slide : Slide) :
    Slide × Nat :=
  let content := lowerStr slide.content
  if qaKeywords.any (fun w => containsSub content w) then addQaFeatures env k slide
  else if comparisonFeatureKeywords.any (fun w => containsSub content w) then
    addComparisonFeatures env k slide
  else if timelineKeywords.any (fun w => containsSub content w) then
    addTimelineFeatures env k slide
  else if toggleKeywords.any (fun w => containsSub content w) then
    addToggleFeatures env k slide
  else (slide, k)

/-! ## `ai_service.py`: `generate_presentation` (deck assembly) -/

/-- The `for i, slide in enumerate(enhanced_slides)` loop of
`generate_presentation`: theme colours, dynamic height, optional
interactivity, id assignment (`slide.get("id") or f"slide_{i+1}_{now}"`). -/
def finalizeLoop (env : ProviderEnv) (theme : Theme) (includeInteractive : Bool) :
    Nat → Nat → List Slide → List Slide
  | _, _, [] => []
  | i, k, slide :: rest =>
    let slide := applyThemeColors slide theme
    let slide := { slide with height := some (calculateDynamicHeight slide) }
    let pair :=
      if includeInteractive then enhanceSlideWithInteractivity env k slide
      else (slide, k)
    let slide := pair.1
    let newId :=
      if (slide.id.getD []).isEmpty then
        ("slide_".data) ++ natStr (i + 1) ++ '_' :: natStr env.nowMs
      else slide.id.getD []
    let slide := { slide with id := some newId }
    slide :: finalizeLoop env theme includeInteractive (i + 1) pair.2 rest

/-- Models `AIHeavyPresentationService.generate_presentation`: dispatches to the
outline path when `outline_sections` is non-empty, otherwise to the
topic path; resolves media, applies the theme and assembles the deck.
`respOutline` / `respGamma` carry the (nondeterministic) parsed model
response of whichever path runs. -/
def generatePresentation (env : ProviderEnv) (topic : Str) (themeName : Str)
    (includeInteractive : Bool) (numSlides : Nat) (audience purpose : Str)
    (sections : List Section) (imageStyle : Str)
    (respGamma respOutline : Option PData) : Deck :=
  let presentationData :=
    if sections ≠ [] then generateFromOutlineSections sections imageStyle respOutline
    else generatePresentationGammaStyle env topic numSlides audience purpose respGamma
  let enhancedSlides := addMediaAssets env presentationData.slides
  let theme := getTheme env themeName
  let finalSlides := finalizeLoop env theme includeInteractive 0 0 enhancedSlides
  { title := presentationData.title.getD (pyTitle topic),
    description := presentationData.description.getD
      (("Professional presentation about ".data) ++ topic),
    themeName := theme.name,
    slides := finalSlides,
    metadata :=
      { totalSlides := finalSlides.length,
        hasInteractiveFeatures := includeInteractive,
        hasCharts := finalSlides.any (fun s => s.chartUrl.isSome),
        hasImages := finalSlides.all (fun s => s.imageUrl.isSome),
        audience := audience,
        purpose := purpose } }

/-! ## Concrete environments and inputs for witnesses and counterexamples -/

/-- An environment in which every external provider fails and every
chart render raises. -/
def envNone : ProviderEnv :=
  { hfImage := fun _ _ => none,
    renderPayload := fun _ => none,
    nowMs := 0,
    uuid := fun _ => [],
    randInt := fun _ _ => 0,
    themeChoice := modernTheme }

/-- An environment in which chart rendering succeeds with a fixed
base64 payload. -/
def envRenderOk : ProviderEnv :=
  { envNone with renderPayload := fun _ => some ("QUJD".data) }

/-- A three-section outline (fewer than 8 sections). -/
def threeSections : List Section :=
  [{ title := ("Intro Section".data), content := ("• a point here".data) },
   { title := ("Middle Section".data), content := ("• b point here".data) },
   { title := ("End Section".data), content := ("• c point here".data) }]

/-- The deck produced from the three-section outline (fallback response). -/
def threeSectionDeck : Deck :=
  generatePresentation envNone ("AI".data) ("modern".data) true 8
    ("business professionals".data) ("inform".data) threeSections
    ("professional".data) none none

/-- A chart spec whose `labels`/`values` lengths disagree: it passes the
key-presence test of `_add_media_assets` but fails inside `_render_chart`. -/
def mismatchChart : ChartData :=
  { needed := true, type := some ("bar".data),
    labels := some [("Q1".data), ("Q2".data)], values := some [10] }

/-- A slide selected for chart rendering whose render will fail. -/
def mismatchChartSlide : Slide :=
  { title := ("Quarterly Results".data), content := ("• x".data),
    chartData := some mismatchChart }

/-- A well-formed chart spec (`len(labels) == len(values) == 2`). -/
def okChart : ChartData :=
  { needed := true, type := some ("bar".data),
    labels := some [("Q1".data), ("Q2".data)], values := some [10, 20] }

/-- A slide selected for chart rendering whose render succeeds under
`envRenderOk`. -/
def okChartSlide : Slide :=
  { title := ("Quarterly Results".data), content := ("• x".data),
    chartData := some okChart }

/-- A section whose title and content are both too short: it is dropped
by the schema enforcer, so the output is all fillers. -/
def noiseSection : Section :=
  { title := ("Hi".data), content := ("short".data) }

/-- A section that validates on the first pass but whose bullet-reformatted
content (`"• a\n• b\n• c"`, 11 characters) fails the 20-character check on
a second pass. -/
def fragileSection : Section :=
  { title := ("Valid Title Here".data),
    content := ("a\nb\nc\nd\ne\nf\ng\nh\ni\nj\nk".data) }

/-- A section that survives the enforcer unchanged: bulleted content of
more than 20 characters. -/
def solidSection : Section :=
  { title := ("Solid Section Title".data),
    content := ("• Alpha point here\n• Beta point here".data) }

/-- A truncated JSON response with two unclosed `[` brackets:
`'\x7b' "s" : [ [ '\x7b' "k" : "v" '\x7d'`. -/
def truncatedResponse : Str :=
  ['\x7b', '"', 's', '"', ':', '[', '[', '\x7b', '"', 'k', '"', ':', '"', 'v', '"', '\x7d']

/-- What the repair step actually produces on `truncatedResponse`. -/
def repairedResponse : Str :=
  ['\x7b', '"', 's', '"', ':', '[', '[', '\x7b', '"', 'k', '"', ':', '"', 'v', '"', '\x7d',
   ']', '\x7d']

/-! ## Helper lemmas: stripping -/

theorem strip_def (s : Str) :
    strip s = (s.rdropWhile isSpaceChar).dropWhile isSpaceChar := rfl

theorem stripped_parts {s : Str} (h : strip s = s) :
    s.dropWhile isSpaceChar = s ∧ s.rdropWhile isSpaceChar = s := by
  have e : (s.rdropWhile isSpaceChar).dropWhile isSpaceChar = s := by
    rw [← strip_def, h]
  have h1 : s.length ≤ (s.rdropWhile isSpaceChar).length := by
    conv_lhs => rw [← e]
    exact (List.dropWhile_suffix _).length_le
  have h2 : (s.rdropWhile isSpaceChar).length ≤ s.length :=
    (List.rdropWhile_prefix _ _).length_le
  have h3 : s.rdropWhile isSpaceChar = s :=
    (List.rdropWhile_prefix _ _).eq_of_length (le_antisymm h2 h1)
  rw [h3] at e
  exact ⟨e, h3⟩

theorem getLast?_of_suffix {l₁ l₂ : Str} (h : l₁ <:+ l₂) (hne : l₁ ≠ []) :
    l₂.getLast? = l₁.getLast? := by
  obtain ⟨u, rfl⟩ := h
  exact List.getLast?_append_of_ne_nil u hne

theorem strip_head?_not_space {s : Str} {a : Char}
    (h : (strip s).head? = some a) : isSpaceChar a = false := by
  rw [strip_def] at h
  have hne : (s.rdropWhile isSpaceChar).dropWhile isSpaceChar ≠ [] := by
    intro hnil; rw [hnil] at h; exact Option.noConfusion h
  have := List.head_dropWhile_not isSpaceChar (s.rdropWhile isSpaceChar) hne
  rw [List.head?_eq_head hne] at h
  cases h
  simpa using this

theorem strip_getLast?_not_space {s : Str} {a : Char}
    (h : (strip s).getLast? = some a) : isSpaceChar a = false := by
  rw [strip_def] at h
  have hne : (s.rdropWhile isSpaceChar).dropWhile isSpaceChar ≠ [] := by
    intro hnil; rw [hnil] at h; exact Option.noConfusion h
  have hyne : s.rdropWhile isSpaceChar ≠ [] := by
    intro hnil; rw [hnil] at hne; exact hne rfl
  have hsame : (s.rdropWhile isSpaceChar).getLast? =
      ((s.rdropWhile isSpaceChar).dropWhile isSpaceChar).getLast? :=
    getLast?_of_suffix (List.dropWhile_suffix _) hne
  have hlast := List.rdropWhile_last_not isSpaceChar s hyne
  rw [List.getLast?_eq_getLast _ hyne] at hsame
  rw [← hsame] at h
  cases h
  simpa using hlast

theorem strip_eq_self {s : Str}
    (hhead : ∀ a, s.head? = some a → isSpaceChar a = false)
    (hlast : ∀ a, s.getLast? = some a → isSpaceChar a = false) : strip s = s := by
  rcases hs : s with _ | ⟨c, t⟩
  · rfl
  · rw [← hs]
    have hne : s ≠ [] := by rw [hs]; exact List.cons_ne_nil _ _
    have h1 : s.rdropWhile isSpaceChar = s := by
      rw [List.rdropWhile_eq_self_iff]
      intro hl
      have := hlast (s.getLast hl) (List.getLast?_eq_getLast _ hl)
      simpa using this
    have h2 : s.dropWhile isSpaceChar = s := by
      rcases hh : s.head? with _ | a
      · rw [hs] at hh; exact Option.noConfusion hh
      · have ha := hhead a hh
        rw [List.head?_eq_some_iff] at hh
        obtain ⟨ys, hys⟩ := hh
        rw [hys, List.dropWhile_cons, ha]
        simp
    rw [strip_def, h1, h2]

theorem strip_idem (s : Str) : strip (strip s) = strip s := by
  apply strip_eq_self
  · exact fun a ha => strip_head?_not_space ha
  · exact fun a ha => strip_getLast?_not_space ha

theorem strip_ne_nil {s : Str} {a : Char} (ha : a ∈ s)
    (hna : isSpaceChar a = false) : strip s ≠ [] := by
  intro hnil
  rw [strip_def, List.dropWhile_eq_nil_iff] at hnil
  have hay : a ∈ s.rdropWhile isSpaceChar := by
    have hrev : a ∈ s.reverse := List.mem_reverse.mpr ha
    rw [← List.takeWhile_append_dropWhile (p := isSpaceChar) (l := s.reverse)] at hrev
    rcases List.mem_append.mp hrev with h | h
    · exact absurd (List.mem_takeWhile_imp h) (by simp [hna])
    · rw [List.rdropWhile, List.mem_reverse]
      exact h
  exact absurd (hnil a hay) (by simp [hna])

theorem strip_length_le (s : Str) : (strip s).length ≤ s.length :=
  le_trans (List.dropWhile_suffix _).length_le (List.rdropWhile_prefix _ _).length_le

/-! ## Helper lemmas: splitting and joining -/

theorem splitOnCh_ne_nil (sep : Char) (s : Str) : splitOnCh sep s ≠ [] := by
  cases s with
  | nil => simp [splitOnCh]
  | cons c rest =>
    simp only [splitOnCh]
    rcases hsp : splitOnCh sep rest with _ | ⟨h, t⟩ <;> by_cases hc : c = sep <;> simp [hc]

theorem splitOnCh_exists_mem {sep a : Char} {s : Str} (ha : a ∈ s) (hne : a ≠ sep) :
    ∃ piece ∈ splitOnCh sep s, a ∈ piece := by
  induction s with
  | nil => cases ha
  | cons c rest ih =>
    simp only [splitOnCh]
    rcases hsp : splitOnCh sep rest with _ | ⟨h, t⟩
    · exact absurd hsp (splitOnCh_ne_nil sep rest)
    · rcases List.mem_cons.mp ha with rfl | hmem
      · have hcs : ¬ a = sep := hne
        simp only [if_neg hcs]
        exact ⟨a :: h, by simp, by simp⟩
      · obtain ⟨piece, hp, hap⟩ := ih hmem
        rw [hsp] at hp
        rcases List.mem_cons.mp hp with rfl | hpt
        · by_cases hc : c = sep
          · simp only [if_pos hc]
            exact ⟨piece, by simp, hap⟩
          · simp only [if_neg hc]
            exact ⟨c :: piece, by simp, by simp [hap]⟩
        · by_cases hc : c = sep
          · simp only [if_pos hc]
            exact ⟨piece, by simp [hpt], hap⟩
          · simp only [if_neg hc]
            exact ⟨piece, by simp [hpt], hap⟩

theorem joinCh_ne_nil {sep : Char} {ls : List Str} (hmem : ∀ x ∈ ls, x ≠ [])
    (hne : ls ≠ []) : joinCh sep ls ≠ [] := by
  match ls with
  | [] => exact absurd rfl hne
  | [x] => exact hmem x (by simp)
  | x :: y :: t => simp [joinCh]

theorem joinCh_head? {sep : Char} {x : Str} {rest : List Str} (hx : x ≠ []) :
    (joinCh sep (x :: rest)).head? = x.head? := by
  match rest with
  | [] => rfl
  | y :: t =>
    simp only [joinCh]
    exact List.head?_append_of_ne_nil _ hx

theorem joinCh_mem {sep a : Char} {x : Str} {ls : List Str}
    (hx : x ∈ ls) (ha : a ∈ x) : a ∈ joinCh sep ls := by
  induction ls with
  | nil => cases hx
  | cons z rest ih =>
    match rest with
    | [] =>
      rcases List.mem_cons.mp hx with rfl | h
      · exact ha
      · cases h
    | y :: t =>
      simp only [joinCh]
      rcases List.mem_cons.mp hx with rfl | h
      · exact List.mem_append_left _ ha
      · exact List.mem_append_right _ (List.mem_cons_of_mem _ (ih h))

theorem joinCh_getLast?_not_space {ls : List Str}
    (hmem : ∀ x ∈ ls, x ≠ [] ∧ ∀ a, x.getLast? = some a → isSpaceChar a = false) :
    ∀ a, (joinCh '\n' ls).getLast? = some a → isSpaceChar a = false := by
  induction ls with
  | nil => intro a ha; cases ha
  | cons x rest ih =>
    match rest with
    | [] =>
      intro a ha
      exact (hmem x (by simp)).2 a ha
    | y :: t =>
      intro a ha
      simp only [joinCh] at ha
      have hj : joinCh '\n' (y :: t) ≠ [] :=
        joinCh_ne_nil (fun z hz => (hmem z (List.mem_cons_of_mem _ hz)).1) (by simp)
      have hcne : ('\n' :: joinCh '\n' (y :: t)) ≠ [] := by simp
      rw [List.getLast?_append_of_ne_nil _ hcne] at ha
      have : ('\n' :: joinCh '\n' (y :: t)).getLast? = (joinCh '\n' (y :: t)).getLast? := by
        have := List.getLast?_append_of_ne_nil ['\n'] hj
        simpa using this
      rw [this] at ha
      exact ih (fun z hz => hmem z (List.mem_cons_of_mem _ hz)) a ha

/-! ## Helper lemmas: bullet normalisation and section validation -/

theorem bulletized_facts {l : Str} (hl : strip l = l) (hne : l ≠ []) :
    (if startsWith l ['•'] then l else '•' :: ' ' :: l) ≠ [] ∧
    (∀ a, (if startsWith l ['•'] then l else '•' :: ' ' :: l).getLast? = some a →
      isSpaceChar a = false) ∧
    (if startsWith l ['•'] then l else '•' :: ' ' :: l).head? = some '•' := by
  by_cases hb : startsWith l ['•']
  · simp only [if_pos hb]
    refine ⟨hne, ?_, ?_⟩
    · intro a ha
      exact strip_getLast?_not_space (s := l) (by rw [hl]; exact ha)
    · unfold startsWith at hb
      rw [List.isPrefixOf_iff_prefix] at hb
      obtain ⟨t, rfl⟩ := hb
      rfl
  · simp only [if_neg hb]
    refine ⟨by simp, ?_, rfl⟩
    intro a ha
    have : ('•' :: ' ' :: l).getLast? = l.getLast? := by
      have := List.getLast?_append_of_ne_nil ['•', ' '] hne
      simpa using this
    rw [this] at ha
    exact strip_getLast?_not_space (s := l) (by rw [hl]; exact ha)

theorem ensureBullets_fixed {c : Str} (hc : strip c = c) (hne : c ≠ []) :
    strip (ensureBullets c) = ensureBullets c ∧
    containsChar (ensureBullets c) '•' = true := by
  by_cases hb : containsChar c '•'
  · rw [ensureBullets, if_pos hb]
    exact ⟨hc, hb⟩
  · rw [ensureBullets, if_neg hb]
    have hmemlines : ∀ l ∈ ((splitOnCh '\n' c).map strip).filter (fun l => l ≠ []),
        strip l = l ∧ l ≠ [] := by
      intro l hlmem
      rw [List.mem_filter] at hlmem
      obtain ⟨hmap, hne'⟩ := hlmem
      obtain ⟨piece, _, rfl⟩ := List.mem_map.mp hmap
      exact ⟨strip_idem piece, by simpa using hne'⟩
    have hlinesne : ((splitOnCh '\n' c).map strip).filter (fun l => l ≠ []) ≠ [] := by
      rcases hh : c.head? with _ | a
      · rw [List.head?_eq_none_iff] at hh
        exact absurd hh hne
      · have hasp : isSpaceChar a = false := by
          apply strip_head?_not_space (s := c)
          rw [hc]; exact hh
        have hanl : a ≠ '\n' := by
          intro heq
          rw [heq] at hasp
          simp [isSpaceChar] at hasp
        have hamem : a ∈ c := by
          rw [List.head?_eq_some_iff] at hh
          obtain ⟨ys, rfl⟩ := hh
          simp
        obtain ⟨piece, hpmem, hapiece⟩ := splitOnCh_exists_mem hamem hanl
        have hspne : strip piece ≠ [] := strip_ne_nil hapiece hasp
        apply List.ne_nil_of_mem (a := strip piece)
        rw [List.mem_filter]
        exact ⟨List.mem_map.mpr ⟨piece, hpmem, rfl⟩, by simpa using hspne⟩
    set lines := ((splitOnCh '\n' c).map strip).filter (fun l => l ≠ []) with hlines
    have htakene : lines.take 3 ≠ [] := by
      rw [ne_eq, List.take_eq_nil_iff]
      simp [hlinesne]
    obtain ⟨l₀, rest, hcons⟩ := List.exists_cons_of_ne_nil htakene
    have hmemtake : ∀ l ∈ lines.take 3, strip l = l ∧ l ≠ [] :=
      fun l hl => hmemlines l (List.mem_of_mem_take hl)
    have hl₀ : strip l₀ = l₀ ∧ l₀ ≠ [] := hmemtake l₀ (by rw [hcons]; simp)
    have hfacts₀ := bulletized_facts hl₀.1 hl₀.2
    have hmlfacts : ∀ x ∈ (lines.take 3).map
        (fun l => if startsWith l ['•'] then l else '•' :: ' ' :: l),
        x ≠ [] ∧ ∀ a, x.getLast? = some a → isSpaceChar a = false := by
      intro x hx
      obtain ⟨l, hlmem, rfl⟩ := List.mem_map.mp hx
      have hl := hmemtake l hlmem
      exact ⟨(bulletized_facts hl.1 hl.2).1, (bulletized_facts hl.1 hl.2).2.1⟩
    constructor
    · apply strip_eq_self
      · intro a ha
        rw [hcons] at ha
        simp only [List.map_cons] at ha
        rw [joinCh_head? hfacts₀.1] at ha
        rw [hfacts₀.2.2] at ha
        cases ha
        decide
      · intro a ha
        exact joinCh_getLast?_not_space hmlfacts a ha
    · have hbu : '•' ∈ joinCh '\n' ((lines.take 3).map
          (fun l => if startsWith l ['•'] then l else '•' :: ' ' :: l)) := by
        apply joinCh_mem (x := if startsWith l₀ ['•'] then l₀ else '•' :: ' ' :: l₀)
        · rw [hcons]; simp
        · rw [List.head?_eq_some_iff] at hfacts₀
          obtain ⟨ys, hys⟩ := hfacts₀.2.2
          rw [hys]; simp
      simpa [containsChar] using hbu

theorem validateSection_some {sec sec' : Section}
    (h : validateSection sec = some sec') :
    sec'.title = strip sec.title ∧ sec'.content = ensureBullets (strip sec.content) ∧
    5 ≤ (strip sec.title).length ∧ 20 ≤ (strip sec.content).length := by
  simp only [validateSection] at h
  split_ifs at h with h1 h2
  · cases h
    simp only [Bool.or_eq_true, decide_eq_true_eq, not_or, not_lt] at h1 h2
    exact ⟨rfl, rfl, h1.2, h2.2⟩

theorem validateSection_out {sec sec' : Section}
    (h : validateSection sec = some sec') (hlen : 20 ≤ sec'.content.length) :
    validateSection sec' = some sec' := by
  obtain ⟨ht, hcontent, htlen, hclen⟩ := validateSection_some h
  have htstrip : strip sec'.title = sec'.title := by rw [ht]; exact strip_idem _
  have hcne : strip sec.content ≠ [] := by
    intro hnil
    rw [hnil] at hclen
    simp at hclen
  have hfix := ensureBullets_fixed (strip_idem sec.content) hcne
  have hcstrip : strip sec'.content = sec'.content := by rw [hcontent]; exact hfix.1
  have hccontains : containsChar sec'.content '•' = true := by rw [hcontent]; exact hfix.2
  unfold validateSection
  rw [htstrip, hcstrip]
  have ht5 : ¬ (sec'.title = [] ∨ sec'.title.length < 5) := by
    rw [ht]
    rintro (hnil | hlt)
    · rw [hnil] at htlen; simp at htlen
    · omega
  rw [if_neg (by simpa using ht5)]
  have hc20 : ¬ (sec'.content = [] ∨ sec'.content.length < 20) := by
    rintro (hnil | hlt)
    · rw [hnil] at hlen; simp at hlen
    · omega
  rw [if_neg (by simpa using hc20)]
  rw [ensureBullets, if_pos hccontains]

theorem validateSection_filler {n : Nat} (hn : n ≤ 8) :
    validateSection (fillerSection n) = some (fillerSection n) := by
  interval_cases n <;> decide

theorem filterMap_eq_self_of {α : Type _} {f : α → Option α} {l : List α}
    (h : ∀ a ∈ l, f a = some a) : l.filterMap f = l := by
  induction l with
  | nil => rfl
  | cons a t ih =>
    rw [List.filterMap_cons, h a (by simp)]
    rw [ih (fun x hx => h x (by simp [hx]))]

theorem padToEight_length (v : List Section) :
    (padToEight v).length = max v.length 8 := by
  simp [padToEight]
  omega

theorem enforceSchema_length (ss : List Section) :
    8 ≤ (enforceSchema ss).length ∧ (enforceSchema ss).length ≤ 15 := by
  unfold enforceSchema
  rw [List.length_take, padToEight_length]
  omega

theorem enforceSchema_mem {ss : List Section} {e : Section}
    (he : e ∈ enforceSchema ss) :
    (∃ sec ∈ ss, validateSection sec = some e) ∨ ∃ n ≤ 8, e = fillerSection n := by
  unfold enforceSchema at he
  have hmem := List.mem_of_mem_take he
  rw [padToEight] at hmem
  rcases List.mem_append.mp hmem with h | h
  · exact Or.inl (List.mem_filterMap.mp h)
  · obtain ⟨i, hi, hei⟩ := List.mem_map.mp h
    rw [List.mem_range] at hi
    exact Or.inr ⟨(ss.filterMap validateSection).length + 1 + i, by omega, hei.symm⟩

/-! ## Claims C4 and C9: the schema enforcer -/

/-- C4 counterexample: on a single noise section (title and content both
too short) the enforcer drops the section and emits exactly 8 synthesized
fillers — but they are titled `"Key Insight N"`, not `"Key Point N"` as
the claim states. -/
theorem c4_counterexample :
    (enforceSchema [noiseSection]).map (fun s => s.title) ≠
      (List.range 8).map (fun i => ("Key Point ".data) ++ natStr (i + 1)) ∧
    (enforceSchema [noiseSection]).map (fun s => s.title) =
      (List.range 8).map (fun i => ("Key Insight ".data) ++ natStr (i + 1)) := by
  decide

/-- C4 (amended): the schema-enforcement step of `generate_outline` drops
every entry whose stripped title is shorter than 5 characters or whose
stripped content is shorter than 20 characters; if fewer than 8 valid
entries remain it appends synthesized filler entries titled
`"Key Insight N"` (not `"Key Point N"`) with generic 3-bullet content
until there are exactly 8; if more than 15 remain it keeps exactly the
first 15 in their original order. -/
theorem c4_schema_enforcement_amended (ss : List Section) :
    (∀ sec : Section, (validateSection sec).isNone ↔
      ((strip sec.title).length < 5 ∨ (strip sec.content).length < 20)) ∧
    ((ss.filterMap validateSection).length < 8 →
      enforceSchema ss = ss.filterMap validateSection ++
        (List.range (8 - (ss.filterMap validateSection).length)).map
          (fun i => fillerSection ((ss.filterMap validateSection).length + 1 + i)) ∧
      (enforceSchema ss).length = 8) ∧
    (15 < (ss.filterMap validateSection).length →
      enforceSchema ss = (ss.filterMap validateSection).take 15) := by
  refine ⟨?_, ?_, ?_⟩
  · intro sec
    simp only [validateSection]
    split_ifs with h1 h2
    · simp only [Bool.or_eq_true, decide_eq_true_eq] at h1
      simp only [Option.isNone_none, true_iff]
      rcases h1 with hnil | hlt
      · exact Or.inl (by rw [hnil]; simp)
      · exact Or.inl hlt
    · simp only [Bool.or_eq_true, decide_eq_true_eq] at h2
      simp only [Option.isNone_none, true_iff]
      rcases h2 with hnil | hlt
      · exact Or.inr (by rw [hnil]; simp)
      · exact Or.inr hlt
    · simp only [Bool.or_eq_true, decide_eq_true_eq, not_or, not_lt] at h1 h2
      simp only [Option.isNone_some, Bool.false_eq_true, false_iff, not_or, not_lt]
      exact ⟨h1.2, h2.2⟩
  · intro hlt
    have hlen : (padToEight (ss.filterMap validateSection)).length = 8 := by
      rw [padToEight_length]; omega
    constructor
    · unfold enforceSchema
      rw [List.take_of_length_le (by omega), padToEight]
    · unfold enforceSchema
      rw [List.take_of_length_le (by omega), hlen]
  · intro hgt
    unfold enforceSchema
    rw [padToEight]
    have h0 : 8 - (ss.filterMap validateSection).length = 0 := by omega
    rw [h0]
    simp

/-- C4 witness: on the concrete noise input the under-8 branch of the
amended theorem applies and yields exactly 8 entries. -/
theorem c4_schema_enforcement_amended_witness :
    (enforceSchema [noiseSection]).length = 8 :=
  ((c4_schema_enforcement_amended [noiseSection]).2.1 (by decide)).2

/-- C9 counterexample: a section whose content validates at 21 characters
but collapses to 11 characters (`"• a\n• b\n• c"`) under bullet
reformatting.  On the second run that entry is dropped and a new filler
is appended, so re-running the enforcer on its own output changes it. -/
theorem c9_counterexample :
    enforceSchema (enforceSchema [fragileSection]) ≠ enforceSchema [fragileSection] := by
  decide

/-- C9 (amended): re-running the schema enforcer on its own output is a
no-op provided every emitted entry still has content of at least 20
characters (the bullet reformatting, which keeps only the first 3 lines,
can otherwise shorten an entry below the validity threshold, making a
second run drop it and append a further filler). -/
theorem c9_enforcer_idempotence_amended (ss : List Section)
    (h : ∀ e ∈ enforceSchema ss, 20 ≤ e.content.length) :
    enforceSchema (enforceSchema ss) = enforceSchema ss := by
  have hvalid : ∀ e ∈ enforceSchema ss, validateSection e = some e := by
    intro e he
    rcases enforceSchema_mem he with ⟨sec, _, hv⟩ | ⟨n, hn, rfl⟩
    · exact validateSection_out hv (h e he)
    · exact validateSection_filler hn
  have hfm : (enforceSchema ss).filterMap validateSection = enforceSchema ss :=
    filterMap_eq_self_of hvalid
  have hlen := enforceSchema_length ss
  show (padToEight ((enforceSchema ss).filterMap validateSection)).take 15
      = enforceSchema ss
  rw [hfm, padToEight]
  have h0 : 8 - (enforceSchema ss).length = 0 := by omega
  rw [h0]
  simp only [List.range_zero, List.map_nil, List.append_nil]
  exact List.take_of_length_le hlen.2

/-- C9 witness: on the concrete solid input every output entry keeps at
least 20 characters of content, so the amended idempotence applies. -/
theorem c9_enforcer_idempotence_amended_witness :
    enforceSchema (enforceSchema [solidSection]) = enforceSchema [solidSection] :=
  c9_enforcer_idempotence_amended [solidSection] (by decide)

/-! ## Claim C5: the truncated-JSON repair -/

theorem countChar_append_single (t : Str) (c a : Char) :
    countChar (t ++ [c]) a = countChar t a + (if c = a then 1 else 0) := by
  simp only [countChar, List.count_append]
  congr 1
  by_cases h : c = a
  · subst h; simp [List.count_cons]
  · simp [List.count_cons, h]

theorem countChar_append (t u : Str) (a : Char) :
    countChar (t ++ u) a = countChar t a + countChar u a := by
  simp [countChar, List.count_append]

/-- C5 counterexample: on the truncated response
`'\x7b'"s":[['\x7b'"k":"v"'\x7d'` (two unclosed `[`), the repair appends
only one `]` and one closing brace, leaving the bracket counts
unbalanced (2 open `[` against 1 `]`) instead of appending the minimum
number needed to balance them. -/
theorem c5_counterexample :
    fixIncompleteJson truncatedResponse = some repairedResponse ∧
    countChar repairedResponse '[' = 2 ∧ countChar repairedResponse ']' = 1 := by
  decide

/-- C5 (amended): the repair step truncates to the last complete
`"`-closure and then appends at most one `]` (when `[`s outnumber `]`s)
and at most one closing brace (when open braces outnumber closing ones);
it therefore closes only one level of nesting per bracket type, and all
open brackets end up closed exactly when the truncated prefix has at
most one excess `[` and at most one excess open brace. -/
theorem c5_repair_balance_amended (r o : Str) (ho : fixIncompleteJson r = some o) :
    ∃ t, truncAtLastClose r = some t ∧ o = balanceOnce t ∧
      (countChar t '[' ≤ countChar t ']' + 1 →
       countChar t '\x7b' ≤ countChar t '\x7d' + 1 →
       countChar o '[' ≤ countChar o ']' ∧
       countChar o '\x7b' ≤ countChar o '\x7d') := by
  unfold fixIncompleteJson at ho
  split_ifs at ho with hs
  rcases ht : truncAtLastClose r with _ | t
  · rw [ht] at ho; exact absurd ho (by simp)
  · rw [ht] at ho
    simp only [Option.map_some'] at ho
    have hoe : o = balanceOnce t := (Option.some.inj ho).symm
    refine ⟨t, rfl, hoe, ?_⟩
    intro hbr hbc
    subst hoe
    simp only [balanceOnce]
    split_ifs with h1 h2 h3
    · simp [countChar_append, countChar, List.count_cons] at h1 h2 hbr hbc ⊢
      omega
    · simp [countChar_append, countChar, List.count_cons] at h1 h2 hbr hbc ⊢
      omega
    · simp [countChar_append, countChar, List.count_cons] at h1 h3 hbr hbc ⊢
      omega
    · simp [countChar, List.count_cons] at h1 h3 hbr hbc ⊢
      omega

/-! ## Claim C1: slide-count band -/

theorem enumMap_length {α β : Type _} (f : Nat → α → β) :
    ∀ (i : Nat) (l : List α), (enumMap f i l).length = l.length
  | _, [] => rfl
  | i, a :: rest => by simp [enumMap, enumMap_length f (i + 1) rest]

theorem addMediaAssets_length (env : ProviderEnv) (slides : List Slide) :
    (addMediaAssets env slides).length = slides.length := by
  simp [addMediaAssets]

theorem finalizeLoop_length (env : ProviderEnv) (theme : Theme) (ii : Bool) :
    ∀ (i k : Nat) (slides : List Slide),
      (finalizeLoop env theme ii i k slides).length = slides.length
  | _, _, [] => rfl
  | i, k, slide :: rest => by
    simp only [finalizeLoop, List.length_cons]
    rw [finalizeLoop_length env theme ii (i + 1) _ rest]

theorem createIntelligentFallback_length (env : ProviderEnv) (topic : Str)
    (numSlides : Nat) (audience purpose : Str) :
    8 ≤ (createIntelligentFallback env topic numSlides audience purpose).slides.length ∧
    (createIntelligentFallback env topic numSlides audience purpose).slides.length ≤ 15 := by
  have hct : coreTopics.length = 6 := rfl
  simp only [createIntelligentFallback, List.length_take, List.length_append,
    List.length_cons, List.length_nil, enumMap_length, hct]
  omega

theorem gammaStyle_length (env : ProviderEnv) (topic : Str) (numSlides : Nat)
    (audience purpose : Str) (resp : Option PData) :
    8 ≤ (generatePresentationGammaStyle env topic numSlides audience purpose resp).slides.length ∧
    (generatePresentationGammaStyle env topic numSlides audience purpose resp).slides.length ≤ 15 := by
  cases resp with
  | none => exact createIntelligentFallback_length env topic _ audience purpose
  | some data =>
    simp only [generatePresentationGammaStyle]
    split_ifs with h1 h2
    · simp only [List.length_append, List.length_map, List.length_range]
      omega
    · simp only [List.length_take]
      omega
    · omega

theorem outline_length (sections : List Section) (imageStyle : Str)
    (resp : Option PData) :
    (generateFromOutlineSections sections imageStyle resp).slides.length
      = sections.length := by
  cases resp with
  | none => simp [generateFromOutlineSections, createFallbackFromOutline]
  | some data =>
    simp only [generateFromOutlineSections]
    split_ifs with h1 h2
    · simp only [List.length_append, List.length_map, List.length_range,
        enumMap_length] at h1 ⊢
      omega
    · simp only [List.length_take, enumMap_length] at h2 ⊢
      omega
    · simp only [enumMap_length] at h1 h2 ⊢
      omega

theorem generatePresentation_slides_length (env : ProviderEnv) (topic themeName : Str)
    (ii : Bool) (numSlides : Nat) (audience purpose : Str) (sections : List Section)
    (imageStyle : Str) (respGamma respOutline : Option PData) :
    (generatePresentation env topic themeName ii numSlides audience purpose sections
        imageStyle respGamma respOutline).slides.length
      = (if sections ≠ [] then generateFromOutlineSections sections imageStyle respOutline
         else generatePresentationGammaStyle env topic numSlides audience purpose
           respGamma).slides.length := by
  simp only [generatePresentation]
  rw [finalizeLoop_length, addMediaAssets_length]

/-- C1 counterexample: the outline-sections path performs no 8..15 clamp:
a successful generation request carrying a 3-section outline returns a
deck with exactly 3 slides. -/
theorem c1_counterexample :
    ¬ (8 ≤ threeSectionDeck.slides.length ∧ threeSectionDeck.slides.length ≤ 15) := by
  decide

/-- C1 (amended): the topic-driven path always returns a deck with 8 to
15 slides; the outline-sections-driven path instead returns exactly one
slide per outline section (no clamping), so its deck satisfies the 8..15
band exactly when the outline itself has 8 to 15 sections. -/
theorem c1_slide_count_amended (env : ProviderEnv) (topic themeName : Str)
    (ii : Bool) (numSlides : Nat) (audience purpose : Str) (sections : List Section)
    (imageStyle : Str) (respGamma respOutline : Option PData) :
    (sections = [] →
      8 ≤ (generatePresentation env topic themeName ii numSlides audience purpose
            sections imageStyle respGamma respOutline).slides.length ∧
      (generatePresentation env topic themeName ii numSlides audience purpose
            sections imageStyle respGamma respOutline).slides.length ≤ 15) ∧
    (sections ≠ [] →
      (generatePresentation env topic themeName ii numSlides audience purpose
            sections imageStyle respGamma respOutline).slides.length
        = sections.length) := by
  constructor
  · intro hs
    rw [generatePresentation_slides_length, if_neg (by simp [hs])]
    exact gammaStyle_length env topic numSlides audience purpose respGamma
  · intro hs
    rw [generatePresentation_slides_length, if_pos hs]
    exact outline_length sections imageStyle respOutline

/-- C1 witness: the topic path at a concrete input lands in the 8..15 band. -/
theorem c1_slide_count_amended_witness :
    8 ≤ (generatePresentation envNone ("AI".data) ("modern".data) true 8
          ("business professionals".data) ("inform".data) [] ("professional".data)
          none none).slides.length ∧
    (generatePresentation envNone ("AI".data) ("modern".data) true 8
          ("business professionals".data) ("inform".data) [] ("professional".data)
          none none).slides.length ≤ 15 :=
  (c1_slide_count_amended envNone ("AI".data) ("modern".data) true 8
    ("business professionals".data) ("inform".data) [] ("professional".data)
    none none).1 rfl

/-! ## Claim C7: dynamic slide height -/

/-- C7: for every slide the computed height equals the base height 800,
plus 40 per bullet marker or newline in the content, plus 50 per 200
characters of title-plus-content text, plus 300 if a chart is needed,
clamped into the band [800, 1400]; the result always lies in that band. -/
theorem c7_dynamic_height (slide : Slide) :
    calculateDynamicHeight slide =
      max 800 (min 1400 (800 +
        (countChar slide.content '•' + countChar slide.content '\n') * 40 +
        ((slide.content.length + slide.title.length) / 200) * 50 +
        (if slideHasChart slide then 300 else 0))) ∧
    800 ≤ calculateDynamicHeight slide ∧ calculateDynamicHeight slide ≤ 1400 := by
  refine ⟨rfl, ?_, ?_⟩ <;>
    (simp only [calculateDynamicHeight]; split_ifs <;> omega)

/-- C5 witness: the amended balance property instantiated at the
concrete truncated response. -/
theorem c5_repair_balance_amended_witness :
    ∃ t, truncAtLastClose truncatedResponse = some t ∧
      repairedResponse = balanceOnce t ∧
      (countChar t '[' ≤ countChar t ']' + 1 →
       countChar t '\x7b' ≤ countChar t '\x7d' + 1 →
       countChar repairedResponse '[' ≤ countChar repairedResponse ']' ∧
       countChar repairedResponse '\x7b' ≤ countChar repairedResponse '\x7d') :=
  c5_repair_balance_amended truncatedResponse repairedResponse (by decide)

/-! ## Claim C6: terminal image fallback -/

theorem hf_all_fail (env : ProviderEnv) (prompt : Str)
    (hall : ∀ m, env.hfImage m prompt = none) :
    generateHfImage env prompt = none := by
  unfold generateHfImage
  rw [show tryHfModel env currentHfModel prompt = none by
    simp [tryHfModel, hall currentHfModel]]
  exact List.findSome?_eq_none_iff.mpr (fun m _ => by simp [tryHfModel, hall m])

/-- C6: when the configured Hugging Face model and every alternate model
fail or time out, the resolved image URL is exactly the Pollinations
URL-fallback reference, which is a non-empty string (and the resolution
function is total — no exception reaches the caller). -/
theorem c6_image_fallback (env : ProviderEnv) (prompt : Str) (height : Nat)
    (hall : ∀ m, env.hfImage m prompt = none) :
    resolveImageUrl env prompt height = generatePollinationsImage prompt height ∧
    generatePollinationsImage prompt height ≠ [] := by
  constructor
  · unfold resolveImageUrl
    rw [hf_all_fail env prompt hall]
    simp
  · have hne : pollinationsUrl ≠ [] := by decide
    simp only [generatePollinationsImage]
    intro h
    simp only [List.append_eq_nil] at h
    exact hne h.1.1.1.1

/-- C6 witness. -/
theorem c6_image_fallback_witness :
    resolveImageUrl envNone ("AI robots".data) 800
        = generatePollinationsImage ("AI robots".data) 800 ∧
    generatePollinationsImage ("AI robots".data) 800 ≠ [] :=
  c6_image_fallback envNone ("AI robots".data) 800 (fun _ => rfl)

/-! ## Claims C2, C3, C8: media resolution -/

theorem mediaImageStep_chartUrl (env : ProviderEnv) (slide : Slide) :
    (mediaImageStep env slide).chartUrl = slide.chartUrl := rfl

theorem mediaImageStep_chartData (env : ProviderEnv) (slide : Slide) :
    (mediaImageStep env slide).chartData = slide.chartData := rfl

/-- C2 counterexample: a slide whose chart spec has mismatched
`labels`/`values` lengths passes the key-presence check, so the image is
suppressed; the render then fails, so the chart asset is also empty —
after resolution neither of `imageUrl`/`chartUrl` is non-empty. -/
theorem c2_counterexample :
    ¬ (∀ s ∈ addMediaAssets envNone [mismatchChartSlide],
        (s.imageUrl.getD [] ≠ [] ∧ s.chartUrl.getD [] = []) ∨
        (s.imageUrl.getD [] = [] ∧ s.chartUrl.getD [] ≠ [])) := by
  decide

/-- C2 (amended): after media resolution at most one of a slide's
`imageUrl`/`chartUrl` is non-empty — never both; but both can be empty
(a selected chart whose render fails leaves the slide with two empty
assets). -/
theorem c2_asset_exclusivity_amended (env : ProviderEnv) (slides : List Slide)
    (s : Slide) (hs : s ∈ addMediaAssets env slides) :
    s.imageUrl.getD [] = [] ∨ s.chartUrl.getD [] = [] := by
  obtain ⟨a, _, rfl⟩ := List.mem_map.mp hs
  simp only [addMediaSlide]
  split_ifs with h1 h2
  · left; rfl
  · right; simp [mediaImageStep]
  · right; simp [mediaImageStep]

/-- C2 witness. -/
theorem c2_asset_exclusivity_amended_witness :
    ((addMediaAssets envNone [mismatchChartSlide]).headD {}).imageUrl.getD [] = [] ∨
    ((addMediaAssets envNone [mismatchChartSlide]).headD {}).chartUrl.getD [] = [] :=
  c2_asset_exclusivity_amended envNone [mismatchChartSlide] _ (by decide)

/-- C3 counterexample: a slide whose chart render fails gets the empty
chart marker but does **not** fall through to image resolution — its
image asset stays empty. -/
theorem c3_counterexample :
    ¬ (∀ s ∈ addMediaAssets envNone [okChartSlide],
        s.chartUrl = some [] → s.imageUrl.getD [] ≠ []) := by
  decide

/-- C3 (amended): when a slide is selected for chart rendering (chart
needed, `type`/`labels`/`values` keys present) and the render fails, the
chart asset is set to the empty marker and the slide is *not* routed
through image resolution: its image asset is also the empty string.
(Only a slide whose chart dict lacks one of the three keys falls through
to image resolution.) -/
theorem c3_chart_failure_amended (env : ProviderEnv) (slide : Slide) (cd : ChartData)
    (hcd : slide.chartData = some cd) (hneed : cd.needed = true)
    (hkeys : cd.type.isSome = true ∧ cd.labels.isSome = true ∧ cd.values.isSome = true)
    (hfail : renderChart env cd = none) :
    (addMediaSlide env slide).chartUrl = some [] ∧
    (addMediaSlide env slide).imageUrl = some [] := by
  have hkb : ((cd.type.isSome && cd.labels.isSome) && cd.values.isSome) = true := by
    simp [hkeys.1, hkeys.2.1, hkeys.2.2]
  simp only [addMediaSlide, hcd, Option.getD_some, hneed, if_true, hkb, hfail,
    Option.getD_none]
  constructor <;> trivial

/-- C3 witness: concrete slide with a valid spec whose render raises. -/
theorem c3_chart_failure_amended_witness :
    (addMediaSlide envNone okChartSlide).chartUrl = some [] ∧
    (addMediaSlide envNone okChartSlide).imageUrl = some [] :=
  c3_chart_failure_amended envNone okChartSlide okChart rfl rfl
    (by decide) (by decide)

/-- C8: every slide that ends media resolution with a non-empty chart
asset carries a chart spec with equally long, non-empty `labels` and
`values` lists. -/
theorem c8_chart_validity (env : ProviderEnv) (slides : List Slide) (s : Slide)
    (hs : s ∈ addMediaAssets env slides) (hne : s.chartUrl.getD [] ≠ []) :
    ∃ cd, s.chartData = some cd ∧
      (cd.labels.getD []).length = (cd.values.getD []).length ∧
      1 ≤ (cd.labels.getD []).length := by
  obtain ⟨a, _, rfl⟩ := List.mem_map.mp hs
  simp only [addMediaSlide] at hne ⊢
  split_ifs at hne ⊢ with h1 h2
  · -- valid chart branch: non-empty chartUrl forces a successful render
    rcases hr : renderChart env (a.chartData.getD {}) with _ | u
    · rw [hr] at hne
      simp at hne
    · rcases hca : a.chartData with _ | cd
      · rw [hca] at h1
        simp at h1
      · refine ⟨cd, by simp [hca], ?_⟩
        rw [hca] at hr
        simp only [Option.getD_some] at hr
        simp only [renderChart] at hr
        split_ifs at hr with hv
        simp only [Bool.or_eq_true, decide_eq_true_eq, not_or, ne_eq, not_not] at hv
        refine ⟨hv.2, ?_⟩
        have hpos := List.length_pos.mpr hv.1.1
        omega
  · rw [mediaImageStep_chartUrl] at hne
    simp at hne
  · rw [mediaImageStep_chartUrl] at hne
    simp at hne

/-- C8 witness: a successfully rendered chart slide satisfies the spec
validity. -/
theorem c8_chart_validity_witness :
    ∃ cd, ((addMediaAssets envRenderOk [okChartSlide]).headD {}).chartData = some cd ∧
      (cd.labels.getD []).length = (cd.values.getD []).length ∧
      1 ≤ (cd.labels.getD []).length :=
  c8_chart_validity envRenderOk [okChartSlide] _ (by decide) (by decide)

/-! ## Claim C10: both media keys always present, `hasCharts` degenerate -/

theorem addMediaSlide_keys (env : ProviderEnv) (a : Slide) :
    (addMediaSlide env a).chartUrl.isSome ∧ (addMediaSlide env a).imageUrl.isSome := by
  simp only [addMediaSlide, mediaImageStep]
  split_ifs <;> simp

theorem addQaTogglesLoop_urls (env : ProviderEnv) :
    ∀ (k : Nat) (slide : Slide) (i : Nat) (qs : List Str),
      ((addQaTogglesLoop env k slide i qs).1).chartUrl = slide.chartUrl ∧
      ((addQaTogglesLoop env k slide i qs).1).imageUrl = slide.imageUrl
  | _, _, _, [] => ⟨rfl, rfl⟩
  | k, slide, i, q :: rest => by
    simp only [addQaTogglesLoop, addToggleToSlide]
    exact addQaTogglesLoop_urls env _ _ (i + 1) rest

theorem enhance_urls (env : ProviderEnv) (k : Nat) (slide : Slide) :
    ((enhanceSlideWithInteractivity env k slide).1).chartUrl = slide.chartUrl ∧
    ((enhanceSlideWithInteractivity env k slide).1).imageUrl = slide.imageUrl := by
  simp only [enhanceSlideWithInteractivity]
  split_ifs with hqa hcomp htl htg
  · simp only [addQaFeatures]
    split_ifs with hq
    · exact ⟨rfl, rfl⟩
    · exact addQaTogglesLoop_urls env _ _ 0 _
  · simp only [addComparisonFeatures, addNestedCardToSlide]
    constructor <;> trivial
  · simp only [addTimelineFeatures, addNestedCardToSlide]
    constructor <;> trivial
  · simp only [addToggleFeatures, addToggleToSlide]
    constructor <;> trivial
  · exact ⟨rfl, rfl⟩

theorem finalizeLoop_urls (env : ProviderEnv) (theme : Theme) (ii : Bool) :
    ∀ (i k : Nat) (slides : List Slide) (s : Slide),
      s ∈ finalizeLoop env theme ii i k slides →
      ∃ s₀ ∈ slides, s.chartUrl = s₀.chartUrl ∧ s.imageUrl = s₀.imageUrl
  | i, k, [], s, hs => absurd hs (by simp [finalizeLoop])
  | i, k, slide :: rest, s, hs => by
    simp only [finalizeLoop, List.mem_cons] at hs
    rcases hs with rfl | hs
    · refine ⟨slide, by simp, ?_⟩
      constructor
      · show (if ii then _ else _ : Slide × Nat).1.chartUrl = _
        split_ifs with hii
        · rw [(enhance_urls env k _).1]
          rfl
        · rfl
      · show (if ii then _ else _ : Slide × Nat).1.imageUrl = _
        split_ifs with hii
        · rw [(enhance_urls env k _).2]
          rfl
        · rfl
    · obtain ⟨s₀, hs₀, h⟩ := finalizeLoop_urls env theme ii (i + 1) _ rest s hs
      exact ⟨s₀, List.mem_cons_of_mem _ hs₀, h⟩

/-- C10: after media resolution every slide of the returned deck carries
both a `chartUrl` key and an `imageUrl` key (possibly holding empty
strings); since `metadata.hasCharts` is computed by key presence
(`any("chartUrl" in s ...)`) rather than non-emptiness, it is `True` for
every deck — in particular even under an environment in which no chart
was ever rendered. -/
theorem c10_media_keys_hascharts (env : ProviderEnv) (topic themeName : Str)
    (ii : Bool) (numSlides : Nat) (audience purpose : Str) (sections : List Section)
    (imageStyle : Str) (respGamma respOutline : Option PData) :
    (∀ s ∈ (generatePresentation env topic themeName ii numSlides audience purpose
        sections imageStyle respGamma respOutline).slides,
      s.chartUrl.isSome = true ∧ s.imageUrl.isSome = true) ∧
    (generatePresentation env topic themeName ii numSlides audience purpose
        sections imageStyle respGamma respOutline).metadata.hasCharts = true := by
  have hkeys : ∀ s ∈ (generatePresentation env topic themeName ii numSlides audience
      purpose sections imageStyle respGamma respOutline).slides,
      s.chartUrl.isSome = true ∧ s.imageUrl.isSome = true := by
    intro s hs
    simp only [generatePresentation] at hs
    obtain ⟨s₀, hs₀, hcu, hiu⟩ := finalizeLoop_urls env _ ii 0 0 _ s hs
    obtain ⟨a, _, rfl⟩ := List.mem_map.mp hs₀
    rw [hcu, hiu]
    exact addMediaSlide_keys env a
  refine ⟨hkeys, ?_⟩
  have hlen : 1 ≤ (generatePresentation env topic themeName ii numSlides audience
      purpose sections imageStyle respGamma respOutline).slides.length := by
    rw [generatePresentation_slides_length]
    by_cases hsec : sections = []
    · rw [if_neg (by simp [hsec])]
      have := gammaStyle_length env topic numSlides audience purpose respGamma
      omega
    · rw [if_pos hsec, outline_length]
      have := List.length_pos.mpr hsec
      omega
  have hnil : (generatePresentation env topic themeName ii numSlides audience purpose
      sections imageStyle respGamma respOutline).slides ≠ [] := by
    intro h
    rw [h] at hlen
    simp at hlen
  obtain ⟨s, hs⟩ := List.exists_mem_of_ne_nil _ hnil
  show (generatePresentation env topic themeName ii numSlides audience purpose
      sections imageStyle respGamma respOutline).metadata.hasCharts = true
  simp only [generatePresentation]
  rw [List.any_eq_true]
  refine ⟨s, ?_, (hkeys s hs).1⟩
  simpa [generatePresentation] using hs

set_option maxRecDepth 4096 in
/-- C10 witness: the concrete three-section deck has both keys on its
first slide and `hasCharts = True` although nothing rendered. -/
theorem c10_media_keys_hascharts_witness :
    ((threeSectionDeck.slides.headD {}).chartUrl.isSome = true ∧
      (threeSectionDeck.slides.headD {}).imageUrl.isSome = true) ∧
    threeSectionDeck.metadata.hasCharts = true :=
  ⟨(c10_media_keys_hascharts envNone ("AI".data) ("modern".data) true 8
      ("business professionals".data) ("inform".data) threeSections
      ("professional".data) none none).1 _ (by decide),
   (c10_media_keys_hascharts envNone ("AI".data) ("modern".data) true 8
      ("business professionals".data) ("inform".data) threeSections
      ("professional".data) none none).2⟩

end PresentationAi
